import Mathlib

/-!
Verification development for the `tukit` transaction lifecycle driver
(`src/tukit/tukit.cpp` of the transactional-update repository).

The driver `TUKit::processCommand`, the `Lock` guard and the signal setup in
`TUKit::TUKit` are embedded directly from `src/tukit/tukit.cpp`.  The
`Transaction` class itself (`Transaction.cpp`) is not part of the sources;
its operations are modelled from the specification, as noted on each
definition.  External effects (snapshot backend calls, file operations,
signal-handler installation) are recorded as explicit traces so that
ordering and frame properties can be stated.
-/

/-- Transaction lifecycle states (spec section 3: data model). -/
inductive TXState
  | uninit
  | opened
  | finalized
  | discarded
deriving DecidableEq, Repr

/-- Modelled from the spec: the Transaction entity of section 3
(`Transaction.cpp` is not under src/).  `tid` is the snapshot identifier,
absent until created; `retain` guards implicit disposal. -/
structure Transaction where
  state : TXState
  tid : Option String
  retain : Bool
deriving DecidableEq, Repr

/-- Modelled from the spec: the external SnapshotStore state visible to the
engine — which snapshot identifiers exist, which have been finalized, and
which one is the default boot target (spec section 2). -/
structure Store where
  snapshots : List String
  finalizedSnaps : List String
  defaultSnap : String
deriving DecidableEq, Repr

/-- Environment of external collaborators: the identifier the backend would
assign to a freshly created snapshot, whether creation or setDefault would
fail, and the exit status the ProcessRunner would report for a child command
(chrooted `exec` and host-context `execExt`). -/
structure Env where
  newId : String
  createFails : Bool
  setDefaultFails : Bool
  exec : List String → Int
  execExt : List String → Int

/-- Engine operations performed against the snapshot backend and the
transaction, recorded as a trace. -/
inductive EngineOp
  | createSnap (basis id : String)
  | resumeOp (id : Option String)
  | execOp (status : Int)
  | callExtOp (status : Int)
  | setDefaultOp (id : String)
  | keepOp
  | deleteOp (id : String)
deriving DecidableEq, Repr

/-- Errors surfaced by the driver (spec section 7 taxonomy).
`nullIdPassed` records the paths in `processCommand` where a missing
`argv[1]` is passed to `Transaction::resume` without any check: the C++
source builds a `std::string` from a null pointer there, which is undefined
behaviour, not a reported usage error. -/
inductive TUError
  | missingCommand
  | missingArg (cmd : String)
  | unknownCommand (cmd : String)
  | childFailed (status : Int)
  | snapshotCreationError
  | unknownTransactionError
  | finalizeError
  | nullIdPassed (cmd : String)
deriving DecidableEq, Repr

/-- Result of one `processCommand` invocation: the normal return value or the
propagated error. -/
inductive Outcome
  | ok (status : Int)
  | err (e : TUError)
deriving DecidableEq, Repr

/-- Modelled from the spec: `Transaction::init(basis)` (spec section 4.1) —
creates a snapshot from `basis`, sets state Open and retain false; fails
with SnapshotCreationError when the backend cannot create one. -/
def txInit (env : Env) (st : Store) (basis : String) :
    Except TUError (Transaction × Store × List EngineOp) :=
  if env.createFails then
    .error .snapshotCreationError
  else
    .ok ({ state := .opened, tid := some env.newId, retain := false },
         { st with snapshots := env.newId :: st.snapshots },
         [.createSnap basis env.newId])

/-- Modelled from the spec: `Transaction::resume(id)` reattaches to an
existing, not-yet-finalized snapshot, setting state Open (spec section 4.1);
it fails with UnknownTransactionError otherwise.  Spec section 4.1 also says
resume sets `retain = true`, but that contradicts the spec's own abort
mapping ("abort = resume, then let implicit disposal delete it", sections
4.1, 6 and 8) and the driver source itself: the help text in tukit.cpp
documents `abort <ID>` as "Deletes the given snapshot again", and the `call`
and `callext` branches invoke `keep()` explicitly after resuming, which
would be pointless if resume already retained.  The model therefore sets
`retain = false`; the divergent reading is defined separately as
`txResumeRetain` below. -/
def txResume (st : Store) (id : String) :
    Except TUError (Transaction × List EngineOp) :=
  if id ∈ st.snapshots ∧ id ∉ st.finalizedSnaps then
    .ok ({ state := .opened, tid := some id, retain := false },
         [.resumeOp (some id)])
  else
    .error .unknownTransactionError

/-- Modelled from the spec: `Transaction::finalize()` calls setDefault; on
success the state becomes Finalized and the snapshot becomes default; on
backend failure the transaction is left untouched (still Open) and a
FinalizeError is surfaced (spec section 4.1). -/
def txFinalize (env : Env) (st : Store) (t : Transaction) :
    Except TUError (Transaction × Store × List EngineOp) :=
  match t.tid with
  | none => .error .finalizeError
  | some id =>
    if env.setDefaultFails then
      .error .finalizeError
    else
      .ok ({ t with state := .finalized },
           { st with defaultSnap := id, finalizedSnaps := id :: st.finalizedSnaps },
           [.setDefaultOp id])

/-- Modelled from the spec: `Transaction::keep()` sets retain without
changing the state (spec section 4.1). -/
def txKeep (t : Transaction) : Transaction × List EngineOp :=
  ({ t with retain := true }, [.keepOp])

/-- Modelled from the spec: implicit disposal at scope exit — the
destructor deletes the snapshot exactly when the transaction is Open and
not retained, on every exit path including error propagation (spec
section 4.1). -/
def txDispose (st : Store) (t : Transaction) : Store × List EngineOp :=
  match t.state, t.retain, t.tid with
  | .opened, false, some id =>
      ({ st with snapshots := st.snapshots.erase id }, [.deleteOp id])
  | _, _, _ => (st, [])

/-- Result of `TUKit::processCommand`: outcome, resulting backend state,
whether `displayHelp()` ran, and the trace of engine operations. -/
structure PCResult where
  outcome : Outcome
  store : Store
  helpShown : Bool
  ops : List EngineOp
deriving DecidableEq, Repr

/-- Embedding of `TUKit::processCommand` (tukit.cpp lines 101-157).
`argv` is the null-terminated argument vector as a list; a missing
`argv[i]` is a too-short list.  The local `transaction` object's destructor
(implicit disposal, `txDispose`) runs at scope exit on every path, including
thrown errors.  The `close` and `abort` branches mirror the source exactly:
unlike `call` and `callext` they perform no null check on `argv[1]` and pass
it straight to resume (`nullIdPassed`, undefined behaviour in the C++). -/
def processCommand (env : Env) (st : Store) (baseSnapshot : String)
    (argv : List String) : PCResult :=
  match argv with
  | [] =>
    { outcome := .err .missingCommand, store := st, helpShown := false, ops := [] }
  | arg :: rest =>
    if arg = "execute" then
      match txInit env st baseSnapshot with
      | .error e => { outcome := .err e, store := st, helpShown := false, ops := [] }
      | .ok (t, st1, ops1) =>
        let status := env.exec rest
        if status = 0 then
          match txFinalize env st1 t with
          | .error e =>
            let d := txDispose st1 t
            { outcome := .err e, store := d.1, helpShown := false,
              ops := ops1 ++ [.execOp status] ++ d.2 }
          | .ok (t2, st2, ops2) =>
            let d := txDispose st2 t2
            { outcome := .ok 0, store := d.1, helpShown := false,
              ops := ops1 ++ [.execOp status] ++ ops2 ++ d.2 }
        else
          let d := txDispose st1 t
          { outcome := .err (.childFailed status), store := d.1, helpShown := false,
            ops := ops1 ++ [.execOp status] ++ d.2 }
    else if arg = "open" then
      match txInit env st baseSnapshot with
      | .error e => { outcome := .err e, store := st, helpShown := false, ops := [] }
      | .ok (t, st1, ops1) =>
        let k := txKeep t
        let d := txDispose st1 k.1
        { outcome := .ok 0, store := d.1, helpShown := false,
          ops := ops1 ++ k.2 ++ d.2 }
    else if arg = "call" then
      match rest with
      | [] =>
        { outcome := .err (.missingArg "call"), store := st, helpShown := true, ops := [] }
      | id :: cmdArgs =>
        match txResume st id with
        | .error e =>
          { outcome := .err e, store := st, helpShown := false,
            ops := [.resumeOp (some id)] }
        | .ok (t, ops1) =>
          let status := env.exec cmdArgs
          let k := txKeep t
          let d := txDispose st k.1
          { outcome := .ok status, store := d.1, helpShown := false,
            ops := ops1 ++ [.execOp status] ++ k.2 ++ d.2 }
    else if arg = "callext" then
      match rest with
      | [] =>
        { outcome := .err (.missingArg "callext"), store := st, helpShown := true, ops := [] }
      | id :: cmdArgs =>
        match txResume st id with
        | .error e =>
          { outcome := .err e, store := st, helpShown := false,
            ops := [.resumeOp (some id)] }
        | .ok (t, ops1) =>
          let status := env.execExt cmdArgs
          let k := txKeep t
          let d := txDispose st k.1
          { outcome := .ok status, store := d.1, helpShown := false,
            ops := ops1 ++ [.callExtOp status] ++ k.2 ++ d.2 }
    else if arg = "close" then
      match rest with
      | [] =>
        { outcome := .err (.nullIdPassed "close"), store := st, helpShown := false,
          ops := [.resumeOp none] }
      | id :: _ =>
        match txResume st id with
        | .error e =>
          { outcome := .err e, store := st, helpShown := false,
            ops := [.resumeOp (some id)] }
        | .ok (t, ops1) =>
          match txFinalize env st t with
          | .error e =>
            let d := txDispose st t
            { outcome := .err e, store := d.1, helpShown := false, ops := ops1 ++ d.2 }
          | .ok (t2, st2, ops2) =>
            let d := txDispose st2 t2
            { outcome := .ok 0, store := d.1, helpShown := false,
              ops := ops1 ++ ops2 ++ d.2 }
    else if arg = "abort" then
      match rest with
      | [] =>
        { outcome := .err (.nullIdPassed "abort"), store := st, helpShown := false,
          ops := [.resumeOp none] }
      | id :: _ =>
        match txResume st id with
        | .error e =>
          { outcome := .err e, store := st, helpShown := false,
            ops := [.resumeOp (some id)] }
        | .ok (t, ops1) =>
          let d := txDispose st t
          { outcome := .ok 0, store := d.1, helpShown := false, ops := ops1 ++ d.2 }
    else
      { outcome := .err (.unknownCommand arg), store := st, helpShown := true, ops := [] }

/-- True on trace entries that mutate the snapshot backend. -/
def opMutates : EngineOp → Bool
  | .createSnap _ _ => true
  | .setDefaultOp _ => true
  | .deleteOp _ => true
  | _ => false

/-- True on snapshot-deletion trace entries. -/
def opIsDelete : EngineOp → Bool
  | .deleteOp _ => true
  | _ => false

/-- True on setDefault (finalize) trace entries. -/
def opIsSetDefault : EngineOp → Bool
  | .setDefaultOp _ => true
  | _ => false

/-- True on keep trace entries. -/
def opIsKeep : EngineOp → Bool
  | .keepOp => true
  | _ => false

/-- Modelled from the spec: the exit status the operator observes.  main()
is not under src/; per spec sections 6 and 7 a returned status is propagated
as the process exit status (`TUKit::TUKit` throws a nonzero return value)
and every thrown error makes the process exit non-zero. -/
def mainExitCode : Outcome → Int
  | .ok s => s
  | .err _ => 1

/-- The four termination-class signals intercepted by `TUKit::TUKit`
(tukit.cpp lines 188-191). -/
inductive Signal
  | sigint
  | sighup
  | sigquit
  | sigterm
deriving DecidableEq, Repr

/-- Observable effect of a signal handler: either the handler only logs, or
the process suffers default termination. -/
inductive HandlerEffect
  | logged (s : Signal)
  | defaultTermination
deriving DecidableEq, Repr

/-- Embedding of the `interrupt` handler (tukit.cpp lines 180-185): it just
writes a debug log line naming the received signal and returns. -/
def interrupt (s : Signal) : HandlerEffect := .logged s

/-- Startup events of one `TUKit::TUKit` run, in order. -/
inductive StartupEvent
  | installHandler (s : Signal)
  | lockAcquired
  | lockFailed
  | commandDispatched
deriving DecidableEq, Repr

/-- File operations performed on the lock file. -/
inductive FileOp
  | openLock
  | lockf
  | closeFd
  | removeFile
deriving DecidableEq, Repr

/-- Errors thrown by the `Lock` constructor (tukit.cpp lines 161-171). -/
inductive LockError
  | cannotCreate
  | alreadyRunning
deriving DecidableEq, Repr

/-- Embedding of the `Lock` constructor (tukit.cpp lines 161-171): open the
lock file, then try `lockf`.  When `lockf` fails the constructor throws; the
`remove(...)` call on line 169 stands after the throw on line 168 and is
never executed, so no `removeFile` operation appears on that path. -/
def lockAcquire (openFails heldByOther : Bool) : Option LockError × List FileOp :=
  if openFails then
    (some .cannotCreate, [.openLock])
  else if heldByOther then
    (some .alreadyRunning, [.openLock, .lockf])
  else
    (none, [.openLock, .lockf])

/-- Embedding of the `Lock` destructor (tukit.cpp lines 172-175): close the
descriptor and remove the lock file; as a destructor of a scoped local it
runs on normal and abnormal (unwinding) exit alike. -/
def lockRelease : List FileOp := [.closeFd, .removeFile]

/-- The signal-handler installation sequence of `TUKit::TUKit`
(tukit.cpp lines 188-191), in source order. -/
def installEvents : List StartupEvent :=
  [.installHandler .sigint, .installHandler .sighup,
   .installHandler .sigquit, .installHandler .sigterm]

/-- Outcome of one whole `TUKit::TUKit` run as the operator sees it. -/
inductive RunOutcome
  | helpOrVersionExit
  | lockError (e : LockError)
  | cmdError (e : TUError)
  | done (status : Int)
deriving DecidableEq, Repr

/-- Result of one `TUKit::TUKit` run: the startup event trace, the lock-file
operation trace, the command result when `processCommand` ran at all, the
resulting backend state and the outcome. -/
structure RunResult where
  events : List StartupEvent
  fileOps : List FileOp
  pc : Option PCResult
  store : Store
  outcome : RunOutcome
deriving DecidableEq, Repr

/-- Embedding of `TUKit::TUKit` (tukit.cpp lines 187-214): install the four
signal handlers, parse options (modelled by its result `parseRet`; a value
of zero or below is thrown before the lock is taken), construct the scoped
`Lock`, and only then dispatch `processCommand`.  The lock destructor's
operations run whenever the constructor succeeded, on the normal path and
on error propagation alike. -/
def tukitRun (env : Env) (st : Store) (base : String) (parseRet : Int)
    (openFails heldByOther : Bool) (argv : List String) : RunResult :=
  if parseRet ≤ 0 then
    { events := installEvents, fileOps := [], pc := none, store := st,
      outcome := .helpOrVersionExit }
  else
    match lockAcquire openFails heldByOther with
    | (some e, fops) =>
      { events := installEvents ++ [.lockFailed], fileOps := fops, pc := none,
        store := st, outcome := .lockError e }
    | (none, fops) =>
      let r := processCommand env st base argv
      { events := installEvents ++ [.lockAcquired, .commandDispatched],
        fileOps := fops ++ lockRelease, pc := some r, store := r.store,
        outcome := match r.outcome with
                   | .ok s => .done s
                   | .err e => .cmdError e }

/-- The resume operation exactly as claim C5 and spec section 4.1 word it,
with `retain = true` as the postcondition.  Kept separate from the faithful
`txResume`: this reading contradicts the spec's own abort mapping and the
driver's documented abort behaviour, as the counterexample shows. -/
def txResumeRetain (st : Store) (id : String) : Option Transaction :=
  if id ∈ st.snapshots ∧ id ∉ st.finalizedSnaps then
    some { state := .opened, tid := some id, retain := true }
  else
    none

/-- The abort sequence of the driver (tukit.cpp lines 149-151: resume, then
scope exit) run against the `retain = true` reading of resume. -/
def abortWithRetainResume (st : Store) (id : String) : Store × List EngineOp :=
  match txResumeRetain st id with
  | none => (st, [])
  | some t => txDispose st t

/-- A concrete backend state for witnesses: snapshots "5" and "1" exist,
none finalized, "1" is the default. -/
def st0 : Store :=
  { snapshots := ["5", "1"], finalizedSnaps := [], defaultSnap := "1" }

/-- A concrete environment whose child commands all succeed. -/
def envA : Env :=
  { newId := "9", createFails := false, setDefaultFails := false,
    exec := fun _ => 0, execExt := fun _ => 0 }

/-- A concrete environment whose chrooted child commands exit with status 7. -/
def envB : Env :=
  { newId := "9", createFails := false, setDefaultFails := false,
    exec := fun _ => 7, execExt := fun _ => 5 }

/-- A concrete environment in which the backend's setDefault fails. -/
def envD : Env :=
  { newId := "9", createFails := false, setDefaultFails := true,
    exec := fun _ => 0, execExt := fun _ => 0 }

/-- C1: for every `execute` invocation whose child exits with status 0 (and
whose backend cooperates), the driver calls finalize: the new snapshot
becomes the default, stays in the store, and no delete operation is ever
performed (tukit.cpp lines 108-117). -/
theorem C1_execute_success_finalizes (env : Env) (st : Store) (base : String)
    (rest : List String) (h0 : env.exec rest = 0) (h1 : env.createFails = false)
    (h2 : env.setDefaultFails = false) :
    (processCommand env st base ("execute" :: rest)).outcome = .ok 0
    ∧ (processCommand env st base ("execute" :: rest)).store.defaultSnap = env.newId
    ∧ env.newId ∈ (processCommand env st base ("execute" :: rest)).store.snapshots
    ∧ EngineOp.setDefaultOp env.newId ∈ (processCommand env st base ("execute" :: rest)).ops
    ∧ ((processCommand env st base ("execute" :: rest)).ops.all
        fun o => !(opIsDelete o)) = true := by
  simp [processCommand, txInit, txFinalize, txDispose, h0, h1, h2, opIsDelete]

/-- Witness for C1 at the concrete run `tukit execute true` on `st0`. -/
theorem C1_execute_success_finalizes_witness :
    (envA.exec ["true"] = 0 ∧ envA.createFails = false ∧ envA.setDefaultFails = false)
    ∧ ((processCommand envA st0 "default" ["execute", "true"]).outcome = .ok 0
       ∧ (processCommand envA st0 "default" ["execute", "true"]).store.defaultSnap
           = envA.newId
       ∧ envA.newId ∈ (processCommand envA st0 "default" ["execute", "true"]).store.snapshots
       ∧ EngineOp.setDefaultOp envA.newId
           ∈ (processCommand envA st0 "default" ["execute", "true"]).ops
       ∧ ((processCommand envA st0 "default" ["execute", "true"]).ops.all
           fun o => !(opIsDelete o)) = true) :=
  ⟨⟨rfl, rfl, rfl⟩, C1_execute_success_finalizes envA st0 "default" ["true"] rfl rfl rfl⟩

/-- C2: for every `execute` invocation whose child exits non-zero, finalize
is never called, the error is propagated, implicit disposal deletes the
created snapshot, and the default snapshot is unchanged
(tukit.cpp lines 110-116). -/
theorem C2_execute_failure_discards (env : Env) (st : Store) (base : String)
    (rest : List String) (h0 : env.exec rest ≠ 0) (h1 : env.createFails = false) :
    (processCommand env st base ("execute" :: rest)).outcome
      = .err (.childFailed (env.exec rest))
    ∧ (processCommand env st base ("execute" :: rest)).store.snapshots = st.snapshots
    ∧ (processCommand env st base ("execute" :: rest)).store.defaultSnap = st.defaultSnap
    ∧ EngineOp.deleteOp env.newId ∈ (processCommand env st base ("execute" :: rest)).ops
    ∧ ((processCommand env st base ("execute" :: rest)).ops.all
        fun o => !(opIsSetDefault o)) = true := by
  simp [processCommand, txInit, txFinalize, txDispose, h0, h1, opIsSetDefault,
    List.erase_cons_head]

/-- Witness for C2 at the concrete run `tukit execute false` (status 7). -/
theorem C2_execute_failure_discards_witness :
    (envB.exec [] ≠ 0 ∧ envB.createFails = false)
    ∧ ((processCommand envB st0 "default" ["execute"]).outcome
         = .err (.childFailed (envB.exec []))
       ∧ (processCommand envB st0 "default" ["execute"]).store.snapshots = st0.snapshots
       ∧ (processCommand envB st0 "default" ["execute"]).store.defaultSnap = st0.defaultSnap
       ∧ EngineOp.deleteOp envB.newId ∈ (processCommand envB st0 "default" ["execute"]).ops
       ∧ ((processCommand envB st0 "default" ["execute"]).ops.all
           fun o => !(opIsSetDefault o)) = true) :=
  ⟨⟨by decide, rfl⟩, C2_execute_failure_discards envB st0 "default" [] (by decide) rfl⟩

/-- C3: `call` and `callext` on an existing transaction return the child's
exit status as-is, invoke keep, never delete and never finalize, and leave
the backend state untouched (tukit.cpp lines 124-143). -/
theorem C3_call_callext_keep (env : Env) (st : Store) (base : String) (id : String)
    (cmdArgs : List String) (h : id ∈ st.snapshots) (h2 : id ∉ st.finalizedSnaps) :
    (processCommand env st base ("call" :: id :: cmdArgs)).outcome = .ok (env.exec cmdArgs)
    ∧ mainExitCode (processCommand env st base ("call" :: id :: cmdArgs)).outcome
        = env.exec cmdArgs
    ∧ EngineOp.keepOp ∈ (processCommand env st base ("call" :: id :: cmdArgs)).ops
    ∧ ((processCommand env st base ("call" :: id :: cmdArgs)).ops.all
        fun o => !(opIsDelete o) && !(opIsSetDefault o)) = true
    ∧ (processCommand env st base ("call" :: id :: cmdArgs)).store = st
    ∧ (processCommand env st base ("callext" :: id :: cmdArgs)).outcome
        = .ok (env.execExt cmdArgs)
    ∧ mainExitCode (processCommand env st base ("callext" :: id :: cmdArgs)).outcome
        = env.execExt cmdArgs
    ∧ EngineOp.keepOp ∈ (processCommand env st base ("callext" :: id :: cmdArgs)).ops
    ∧ ((processCommand env st base ("callext" :: id :: cmdArgs)).ops.all
        fun o => !(opIsDelete o) && !(opIsSetDefault o)) = true
    ∧ (processCommand env st base ("callext" :: id :: cmdArgs)).store = st := by
  simp [processCommand, txResume, txKeep, txDispose, h, h2, opIsDelete, opIsSetDefault,
    mainExitCode]

/-- Witness for C3 at the concrete runs `tukit call 5 ls` and
`tukit callext 5 ls` with child statuses 7 and 5. -/
theorem C3_call_callext_keep_witness :
    ("5" ∈ st0.snapshots ∧ "5" ∉ st0.finalizedSnaps)
    ∧ ((processCommand envB st0 "default" ["call", "5", "ls"]).outcome
         = .ok (envB.exec ["ls"])
       ∧ mainExitCode (processCommand envB st0 "default" ["call", "5", "ls"]).outcome
           = envB.exec ["ls"]
       ∧ EngineOp.keepOp ∈ (processCommand envB st0 "default" ["call", "5", "ls"]).ops
       ∧ ((processCommand envB st0 "default" ["call", "5", "ls"]).ops.all
           fun o => !(opIsDelete o) && !(opIsSetDefault o)) = true
       ∧ (processCommand envB st0 "default" ["call", "5", "ls"]).store = st0
       ∧ (processCommand envB st0 "default" ["callext", "5", "ls"]).outcome
           = .ok (envB.execExt ["ls"])
       ∧ mainExitCode (processCommand envB st0 "default" ["callext", "5", "ls"]).outcome
           = envB.execExt ["ls"]
       ∧ EngineOp.keepOp ∈ (processCommand envB st0 "default" ["callext", "5", "ls"]).ops
       ∧ ((processCommand envB st0 "default" ["callext", "5", "ls"]).ops.all
           fun o => !(opIsDelete o) && !(opIsSetDefault o)) = true
       ∧ (processCommand envB st0 "default" ["callext", "5", "ls"]).store = st0) :=
  ⟨⟨by decide, by decide⟩,
   C3_call_callext_keep envB st0 "default" "5" ["ls"] (by decide) (by decide)⟩

/-- C4: `abort` on an existing transaction resumes it, invokes neither
finalize nor keep, lets implicit disposal delete the snapshot, and exits
with status 0 (tukit.cpp lines 149-151). -/
theorem C4_abort_deletes (env : Env) (st : Store) (base : String) (id : String)
    (rest : List String) (h : id ∈ st.snapshots) (h2 : id ∉ st.finalizedSnaps) :
    (processCommand env st base ("abort" :: id :: rest)).outcome = .ok 0
    ∧ mainExitCode (processCommand env st base ("abort" :: id :: rest)).outcome = 0
    ∧ EngineOp.resumeOp (some id) ∈ (processCommand env st base ("abort" :: id :: rest)).ops
    ∧ EngineOp.deleteOp id ∈ (processCommand env st base ("abort" :: id :: rest)).ops
    ∧ ((processCommand env st base ("abort" :: id :: rest)).ops.all
        fun o => !(opIsSetDefault o) && !(opIsKeep o)) = true
    ∧ (processCommand env st base ("abort" :: id :: rest)).store
        = { st with snapshots := st.snapshots.erase id } := by
  simp [processCommand, txResume, txDispose, h, h2, opIsSetDefault, opIsKeep, mainExitCode]

/-- Witness for C4 at the concrete run `tukit abort 5`. -/
theorem C4_abort_deletes_witness :
    ("5" ∈ st0.snapshots ∧ "5" ∉ st0.finalizedSnaps)
    ∧ ((processCommand envA st0 "default" ["abort", "5"]).outcome = .ok 0
       ∧ mainExitCode (processCommand envA st0 "default" ["abort", "5"]).outcome = 0
       ∧ EngineOp.resumeOp (some "5") ∈ (processCommand envA st0 "default" ["abort", "5"]).ops
       ∧ EngineOp.deleteOp "5" ∈ (processCommand envA st0 "default" ["abort", "5"]).ops
       ∧ ((processCommand envA st0 "default" ["abort", "5"]).ops.all
           fun o => !(opIsSetDefault o) && !(opIsKeep o)) = true
       ∧ (processCommand envA st0 "default" ["abort", "5"]).store
           = { st0 with snapshots := st0.snapshots.erase "5" }) :=
  ⟨⟨by decide, by decide⟩,
   C4_abort_deletes envA st0 "default" "5" [] (by decide) (by decide)⟩

/-- C5 counterexample: the claim says a successful resume leaves
`retain = true`.  At the concrete store `st0` with existing snapshot "5",
the faithful model's resume yields `retain = false`; moreover, under the
claimed `retain = true` reading the driver's abort sequence
(tukit.cpp lines 149-151) would delete nothing, while the actual driver run
of `tukit abort 5` does delete snapshot "5" as its help text documents. -/
theorem C5_resume_retain_counterexample :
    txResume st0 "5" = .ok ({ state := .opened, tid := some "5", retain := false },
      [.resumeOp (some "5")])
    ∧ abortWithRetainResume st0 "5" = (st0, [])
    ∧ (processCommand envA st0 "default" ["abort", "5"]).store.snapshots = ["1"]
    ∧ EngineOp.deleteOp "5" ∈ (processCommand envA st0 "default" ["abort", "5"]).ops :=
  ⟨rfl, by decide, by decide, by decide⟩

/-- C5 (amended): a successful resume(id) has postcondition state = Open and
`retain = false`; a resumed transaction that neither keeps nor finalizes is
therefore deleted by implicit disposal at scope exit — which is exactly the
abort mechanism — while an explicit keep (as in call/callext) prevents the
deletion. -/
theorem C5_resume_sets_retain_false (st : Store) (id : String)
    (h : id ∈ st.snapshots) (h2 : id ∉ st.finalizedSnaps) :
    txResume st id = .ok ({ state := .opened, tid := some id, retain := false },
      [.resumeOp (some id)])
    ∧ txDispose st { state := .opened, tid := some id, retain := false }
        = ({ st with snapshots := st.snapshots.erase id }, [.deleteOp id])
    ∧ txDispose st { state := .opened, tid := some id, retain := true } = (st, []) := by
  simp [txResume, txDispose, h, h2]

/-- Witness for the amended C5 at the concrete store `st0` and id "5". -/
theorem C5_resume_sets_retain_false_witness :
    ("5" ∈ st0.snapshots ∧ "5" ∉ st0.finalizedSnaps)
    ∧ (txResume st0 "5" = .ok ({ state := .opened, tid := some "5", retain := false },
         [.resumeOp (some "5")])
       ∧ txDispose st0 { state := .opened, tid := some "5", retain := false }
           = ({ st0 with snapshots := st0.snapshots.erase "5" }, [.deleteOp "5"])
       ∧ txDispose st0 { state := .opened, tid := some "5", retain := true } = (st0, [])) :=
  ⟨⟨by decide, by decide⟩, C5_resume_sets_retain_false st0 "5" (by decide) (by decide)⟩

/-- C6 counterexample: with a backend whose setDefault fails (`envD`), the
concrete run `tukit execute` surfaces the FinalizeError but the snapshot
"9" is then deleted automatically by implicit disposal — refuting the
claim's "the snapshot is not deleted automatically on that error path". -/
theorem C6_finalize_failure_counterexample :
    (processCommand envD st0 "default" ["execute"]).outcome = .err .finalizeError
    ∧ EngineOp.deleteOp "9" ∈ (processCommand envD st0 "default" ["execute"]).ops
    ∧ "9" ∉ (processCommand envD st0 "default" ["execute"]).store.snapshots :=
  ⟨by decide, by decide, by decide⟩

/-- C6 (amended): when setDefault fails, finalize itself surfaces a
FinalizeError leaving the transaction untouched (still Open) and the default
snapshot unchanged, but on both the execute and the close path the
propagating error then triggers implicit disposal, which deletes the
snapshot, since retain is false there. -/
theorem C6_finalize_failure_still_disposes (env : Env) (st : Store) (base : String)
    (rest : List String) (id : String) (h0 : env.exec rest = 0)
    (h1 : env.createFails = false) (h2 : env.setDefaultFails = true)
    (h : id ∈ st.snapshots) (h4 : id ∉ st.finalizedSnaps) :
    txFinalize env st { state := .opened, tid := some id, retain := false }
      = .error .finalizeError
    ∧ (processCommand env st base ("execute" :: rest)).outcome = .err .finalizeError
    ∧ EngineOp.deleteOp env.newId ∈ (processCommand env st base ("execute" :: rest)).ops
    ∧ (processCommand env st base ("execute" :: rest)).store.defaultSnap = st.defaultSnap
    ∧ (processCommand env st base ("close" :: id :: rest)).outcome = .err .finalizeError
    ∧ EngineOp.deleteOp id ∈ (processCommand env st base ("close" :: id :: rest)).ops := by
  simp [processCommand, txInit, txFinalize, txResume, txDispose, h0, h1, h2, h, h4]

/-- Witness for the amended C6 at `envD`, store `st0`, id "5". -/
theorem C6_finalize_failure_still_disposes_witness :
    (envD.exec [] = 0 ∧ envD.createFails = false ∧ envD.setDefaultFails = true
      ∧ "5" ∈ st0.snapshots ∧ "5" ∉ st0.finalizedSnaps)
    ∧ (txFinalize envD st0 { state := .opened, tid := some "5", retain := false }
         = .error .finalizeError
       ∧ (processCommand envD st0 "default" ["execute"]).outcome = .err .finalizeError
       ∧ EngineOp.deleteOp envD.newId ∈ (processCommand envD st0 "default" ["execute"]).ops
       ∧ (processCommand envD st0 "default" ["execute"]).store.defaultSnap = st0.defaultSnap
       ∧ (processCommand envD st0 "default" ["close", "5"]).outcome = .err .finalizeError
       ∧ EngineOp.deleteOp "5" ∈ (processCommand envD st0 "default" ["close", "5"]).ops) :=
  ⟨⟨rfl, rfl, rfl, by decide, by decide⟩,
   C6_finalize_failure_still_disposes envD st0 "default" [] "5" rfl rfl rfl
     (by decide) (by decide)⟩

/-- C7: the Lock guard does remove the lock file on normal and abnormal
destruction (the destructor runs in both cases), but when acquisition fails
because another instance holds the lock, the `remove` on tukit.cpp line 169
stands after the throw on line 168 and never runs: no removeFile operation
appears on that path, contradicting the claim's third clause. -/
theorem C7_lock_file_not_removed_on_acquire_failure :
    lockAcquire false true = (some .alreadyRunning, [.openLock, .lockf])
    ∧ (lockAcquire false true).2.contains .removeFile = false
    ∧ lockRelease.contains .removeFile = true
    ∧ (tukitRun envA st0 "default" 1 false false ["open"]).fileOps
        = [.openLock, .lockf, .closeFd, .removeFile]
    ∧ (tukitRun envA st0 "default" 1 false false ["nosuchcmd"]).outcome
        = .cmdError (.unknownCommand "nosuchcmd")
    ∧ (tukitRun envA st0 "default" 1 false false ["nosuchcmd"]).fileOps
        = [.openLock, .lockf, .closeFd, .removeFile] :=
  ⟨by decide, by decide, by decide, by decide, by decide, by decide⟩

/-- C8 counterexample: at the concrete inputs `tukit close` and
`tukit abort` (missing id) no usage text is shown and the null `argv[1]`
is passed straight to resume; at `tukit` (missing command) no usage text is
shown either — refuting the claim that all these conditions are reported
with usage text. -/
theorem C8_missing_id_counterexample :
    (processCommand envA st0 "default" ["close"]).helpShown = false
    ∧ (processCommand envA st0 "default" ["close"]).ops = [.resumeOp none]
    ∧ (processCommand envA st0 "default" ["abort"]).helpShown = false
    ∧ (processCommand envA st0 "default" ["abort"]).ops = [.resumeOp none]
    ∧ (processCommand envA st0 "default" []).helpShown = false :=
  ⟨by decide, by decide, by decide, by decide, by decide⟩

/-- C8 (amended): a missing command is rejected with an error message only
(no usage text) and no snapshot side effects; an unknown command and a
missing id for call or callext display the usage text; all of these exit
non-zero with no snapshot side effects.  For close and abort a missing id
is not checked: the null argument is handed to resume with no usage text
shown. -/
theorem C8_usage_error_handling (env : Env) (st : Store) (base : String) (c : String)
    (rest : List String) (hc1 : c ≠ "execute") (hc2 : c ≠ "open") (hc3 : c ≠ "call")
    (hc4 : c ≠ "callext") (hc5 : c ≠ "close") (hc6 : c ≠ "abort") :
    processCommand env st base []
      = { outcome := .err .missingCommand, store := st, helpShown := false, ops := [] }
    ∧ mainExitCode (processCommand env st base []).outcome ≠ 0
    ∧ processCommand env st base (c :: rest)
      = { outcome := .err (.unknownCommand c), store := st, helpShown := true, ops := [] }
    ∧ processCommand env st base ["call"]
      = { outcome := .err (.missingArg "call"), store := st, helpShown := true, ops := [] }
    ∧ processCommand env st base ["callext"]
      = { outcome := .err (.missingArg "callext"), store := st, helpShown := true, ops := [] }
    ∧ processCommand env st base ["close"]
      = { outcome := .err (.nullIdPassed "close"), store := st, helpShown := false,
          ops := [.resumeOp none] }
    ∧ processCommand env st base ["abort"]
      = { outcome := .err (.nullIdPassed "abort"), store := st, helpShown := false,
          ops := [.resumeOp none] } := by
  simp [processCommand, hc1, hc2, hc3, hc4, hc5, hc6, mainExitCode]

/-- Witness for the amended C8 at the unknown command "badcmd". -/
theorem C8_usage_error_handling_witness :
    ("badcmd" ≠ "execute" ∧ "badcmd" ≠ "open" ∧ "badcmd" ≠ "call"
      ∧ "badcmd" ≠ "callext" ∧ "badcmd" ≠ "close" ∧ "badcmd" ≠ "abort")
    ∧ (processCommand envA st0 "default" []
         = { outcome := .err .missingCommand, store := st0, helpShown := false, ops := [] }
       ∧ mainExitCode (processCommand envA st0 "default" []).outcome ≠ 0
       ∧ processCommand envA st0 "default" ("badcmd" :: [])
         = { outcome := .err (.unknownCommand "badcmd"), store := st0, helpShown := true,
             ops := [] }
       ∧ processCommand envA st0 "default" ["call"]
         = { outcome := .err (.missingArg "call"), store := st0, helpShown := true, ops := [] }
       ∧ processCommand envA st0 "default" ["callext"]
         = { outcome := .err (.missingArg "callext"), store := st0, helpShown := true,
             ops := [] }
       ∧ processCommand envA st0 "default" ["close"]
         = { outcome := .err (.nullIdPassed "close"), store := st0, helpShown := false,
             ops := [.resumeOp none] }
       ∧ processCommand envA st0 "default" ["abort"]
         = { outcome := .err (.nullIdPassed "abort"), store := st0, helpShown := false,
             ops := [.resumeOp none] }) :=
  ⟨⟨by decide, by decide, by decide, by decide, by decide, by decide⟩,
   C8_usage_error_handling envA st0 "default" "badcmd" [] (by decide) (by decide)
     (by decide) (by decide) (by decide) (by decide)⟩

/-- C9: a second instance started while another holds the lock fails with
the already-running error before any command is dispatched: processCommand
never runs, the backend state is untouched, and in any run where
processCommand did run the lock-acquired event precedes the dispatch event
(tukit.cpp lines 161-171 and 195-211). -/
theorem C9_second_instance_performs_no_ops (env : Env) (st : Store) (base : String)
    (parseRet : Int) (argv : List String) (hp : 0 < parseRet) :
    (tukitRun env st base parseRet false true argv).outcome = .lockError .alreadyRunning
    ∧ (tukitRun env st base parseRet false true argv).pc = none
    ∧ (tukitRun env st base parseRet false true argv).store = st
    ∧ (tukitRun env st base parseRet false true argv).events
        = installEvents ++ [.lockFailed]
    ∧ (tukitRun env st base parseRet false false argv).events
        = installEvents ++ [.lockAcquired, .commandDispatched] := by
  have hnp : ¬ parseRet ≤ 0 := not_le.mpr hp
  simp [tukitRun, lockAcquire, hnp]

/-- Witness for C9 at a concrete second-instance run of `tukit open`. -/
theorem C9_second_instance_performs_no_ops_witness :
    (0 : Int) < 1
    ∧ ((tukitRun envA st0 "default" 1 false true ["open"]).outcome
         = .lockError .alreadyRunning
       ∧ (tukitRun envA st0 "default" 1 false true ["open"]).pc = none
       ∧ (tukitRun envA st0 "default" 1 false true ["open"]).store = st0
       ∧ (tukitRun envA st0 "default" 1 false true ["open"]).events
           = installEvents ++ [.lockFailed]
       ∧ (tukitRun envA st0 "default" 1 false false ["open"]).events
           = installEvents ++ [.lockAcquired, .commandDispatched]) :=
  ⟨by decide, C9_second_instance_performs_no_ops envA st0 "default" 1 ["open"] (by decide)⟩

/-- Case analysis on the startup event trace of a run: it is the four
handler installations alone, or followed by the lock-failure event, or
followed by lock acquisition and command dispatch. -/
theorem tukitRun_events_cases (env : Env) (st : Store) (base : String) (parseRet : Int)
    (openFails heldByOther : Bool) (argv : List String) :
    (tukitRun env st base parseRet openFails heldByOther argv).events = installEvents
    ∨ (tukitRun env st base parseRet openFails heldByOther argv).events
        = installEvents ++ [.lockFailed]
    ∨ (tukitRun env st base parseRet openFails heldByOther argv).events
        = installEvents ++ [.lockAcquired, .commandDispatched] := by
  unfold tukitRun lockAcquire
  by_cases hp : parseRet ≤ 0 <;> cases openFails <;> cases heldByOther <;> simp [hp]

/-- C10: in every run, the handlers for the four termination-class signals
are installed exactly once each, as the first four startup events — before
any lock event and before any command dispatch — and the installed handler
turns each signal into a logged no-op rather than default termination
(tukit.cpp lines 180-191). -/
theorem C10_signal_handlers_installed_once (env : Env) (st : Store) (base : String)
    (parseRet : Int) (openFails heldByOther : Bool) (argv : List String) :
    ((tukitRun env st base parseRet openFails heldByOther argv).events.take 4
        = installEvents)
    ∧ (∀ s : Signal,
        ((tukitRun env st base parseRet openFails heldByOther argv).events.drop 4).count
          (.installHandler s) = 0)
    ∧ (∀ s : Signal,
        (tukitRun env st base parseRet openFails heldByOther argv).events.count
          (.installHandler s) = 1)
    ∧ (∀ s : Signal, interrupt s = .logged s) := by
  rcases tukitRun_events_cases env st base parseRet openFails heldByOther argv with h | h | h <;>
    rw [h] <;>
    exact ⟨by decide, fun s => by cases s <;> decide, fun s => by cases s <;> decide,
      fun s => rfl⟩
